import Mathlib

/-!
Shallow embedding of the Dementia-companion backend (`server/index.js`) and
of the browser voice service (`VoiceService`), together with proofs of the
behavioural properties claimed for them.

JavaScript conventions modelled explicitly:
- an optional / possibly-`undefined` string request field is `Option String`
  (`none` = absent / `undefined` / `null`);
- JS truthiness of such a field: `undefined`, `null` and `""` are falsy,
  every other string is truthy (`truthy`);
- `a || b` on such a field (`jsOr`): the field when truthy, else the default;
- template interpolation of a possibly-`undefined` value (`jsInterp`):
  `undefined` prints as the string "undefined";
- `s.includes(t)` is substring containment (`jsIncludes`);
- `res.json` drops `undefined` object fields during serialization
  (`serializeErrorBody`).
-/

namespace DementiaCompanion

/-- JS truthiness of an optional string field: `undefined`/`null`/`""` are
falsy, all other strings truthy. -/
def truthy : Option String → Bool
  | none => false
  | some s => s != ""

/-- JS `field || default` for an optional string field. -/
def jsOr (a : Option String) (d : String) : String :=
  match a with
  | none => d
  | some s => if s == "" then d else s

/-- JS template interpolation of a possibly-`undefined` string value. -/
def jsInterp : Option String → String
  | none => "undefined"
  | some s => s

/-- `pat.isPrefixOf`-based substring search on character lists. -/
def infixOf (pat : List Char) : List Char → Bool
  | [] => pat.isEmpty
  | c :: t => pat.isPrefixOf (c :: t) || infixOf pat t

/-- JS `s.includes(sub)`: `sub` occurs as a contiguous substring of `s`. -/
def jsIncludes (s sub : String) : Bool :=
  infixOf sub.data s.data

/-- JS `s.toLowerCase()` (ASCII-relevant part): lower-case every character. -/
def jsToLowerCase (s : String) : String :=
  String.mk (s.data.map Char.toLower)

/-- `isMiraRelated` from `server/index.js` (`/api/memory-lane` handler):
`query && (query.toLowerCase().includes('mira') || ... )`, the literal
ten-keyword disjunction of the source. -/
def isMiraRelated (query : Option String) : Bool :=
  match query with
  | none => false
  | some q =>
      (q != "") &&
      (jsIncludes (jsToLowerCase q) "mira" ||
       jsIncludes (jsToLowerCase q) "granddaughter" ||
       jsIncludes (jsToLowerCase q) "visit" ||
       jsIncludes (jsToLowerCase q) "special day" ||
       jsIncludes (jsToLowerCase q) "park" ||
       jsIncludes (jsToLowerCase q) "hug" ||
       jsIncludes (jsToLowerCase q) "scarf" ||
       jsIncludes (jsToLowerCase q) "red" ||
       jsIncludes (jsToLowerCase q) "autumn" ||
       jsIncludes (jsToLowerCase q) "smile")

/-- The configured memory-recall keyword set, in source order. -/
def miraKeywords : List String :=
  ["mira", "granddaughter", "visit", "special day", "park", "hug",
   "scarf", "red", "autumn", "smile"]

/-- Spec-side reading of the classifier condition: some configured keyword
occurs as a case-insensitive substring of the query (the keywords are all
lower-case, so this is containment in the lower-cased query). -/
def containsKeywordCI (q : String) : Bool :=
  miraKeywords.any (fun kw => jsIncludes (jsToLowerCase q) kw)

/-- The fixed Mira-specific suggestion list of `/api/memory-lane`. -/
def miraSuggestions : List String :=
  ["Do you remember choosing those matching red scarves together?",
   "How did it feel when Mira gave you that big, warm hug?",
   "What made you both smile so joyfully that autumn day?",
   "Tell me about the beautiful autumn leaves around you",
   "What was special about wearing matching outfits with Mira?"]

/-- The fixed general suggestion list of `/api/memory-lane`. -/
def generalSuggestions : List String :=
  ["Tell me about your favorite childhood meal",
   "What was your favorite song when you were young?",
   "Do you remember your first pet?",
   "What was your wedding day like?",
   "Tell me about a special holiday memory"]

/-- `memorySuggestions` selection from `server/index.js`: the Mira list when
`isMiraRelated`, else the general list. -/
def memorySuggestions (isMira : Bool) : List String :=
  if isMira then miraSuggestions else generalSuggestions

/-! ### /api/memory-lane: prompts and success response -/

/-- Head of the Mira prompt template (`/api/memory-lane`, `isMiraRelated`
branch), up to the `User input:` interpolation point. -/
def miraPromptHead : String :=
  "You are helping someone with dementia recall a beautiful memory with their granddaughter Mira. \nThis was a special visit where they spent time together outdoors in autumn, both wearing matching red polka dot scarves.\nThey shared the most wonderful hug, both smiling so brightly with pure joy and love.\nThe autumn leaves created a perfect backdrop for this precious grandmother-granddaughter moment.\nRespond with warmth and help them explore this precious memory.\nKeep responses simple, loving, and encouraging.\n\nUser input: "

/-- Head of the general prompt template (`/api/memory-lane`, fallback
branch): interpolates `memoryType || 'general memories'`. -/
def generalPromptHead (memoryType : Option String) : String :=
  "You are helping someone with dementia explore their memories. \nPlease provide warm, encouraging responses about " ++
  jsOr memoryType "general memories" ++
  ".\nAsk gentle questions that might help them recall positive experiences.\nKeep the tone supportive and nostalgic.\n\n"

/-- Tail of the general prompt: the ternary
`query ? 'User input: ...' : 'Start a conversation about pleasant memories.'`. -/
def generalPromptTail (query : Option String) : String :=
  if truthy query then "User input: " ++ jsInterp query
  else "Start a conversation about pleasant memories."

/-- The prompt `/api/memory-lane` sends to the generation model. -/
def memoryLanePrompt (query memoryType : Option String) : String :=
  if isMiraRelated query then miraPromptHead ++ jsInterp query
  else generalPromptHead memoryType ++ generalPromptTail query

/-- Success response body of `/api/memory-lane`. -/
structure MemoryLaneRes where
  response : String
  suggestions : List String
  memoryType : String
  timestamp : String
  deriving Repr, DecidableEq

/-- The `/api/memory-lane` success path: `genText` is the text returned by
the external generation call, `ts` the `new Date().toISOString()` value. -/
def memoryLaneHandler (query memoryType : Option String) (genText ts : String) :
    MemoryLaneRes :=
  { response := genText
    suggestions := memorySuggestions (isMiraRelated query)
    memoryType := jsOr memoryType "general"
    timestamp := ts }

/-! ### /api/chat: validation and prompt -/

/-- What the `/api/chat` handler does before any external call: either it
returns the 400 validation error, or it proceeds to call the generation
model with the composed prompt. -/
inductive ChatStep where
  | validationError (status : Nat) (errMsg : String)
  | callModel (prompt : String)
  deriving Repr, DecidableEq

/-- `true` exactly when the step performs the external generation call. -/
def callsModel : ChatStep → Bool
  | .callModel _ => true
  | .validationError _ _ => false

/-- The `/api/chat` prompt template, interpolating the message and the
ternary `context ? 'Context: ...' : ''`. -/
def chatPrompt (message context : Option String) : String :=
  "You are a helpful, patient, and caring assistant speaking to someone with dementia. \nPlease respond in a simple, clear, and supportive manner. Keep responses short and easy to understand.\nAvoid complex instructions or overwhelming information.\n\nUser message: " ++
  jsInterp message ++ "\n" ++
  (if truthy context then "Context: " ++ jsInterp context else "")

/-- The `/api/chat` handler up to the external call: `if (!message)` returns
`400 Message is required`, else the model is called with the prompt. -/
def chatHandler (message context : Option String) : ChatStep :=
  if !(truthy message) then .validationError 400 "Message is required"
  else .callModel (chatPrompt message context)

/-! ### Error (catch) responses of the three generation endpoints -/

/-- Body of an error response: the fixed `error` string plus the optional
`debug` field (present only on `/api/chat` in development mode). -/
structure ErrorBody where
  error : String
  debug : Option String
  deriving Repr, DecidableEq

/-- An HTTP error response: status code and JSON body. -/
structure HttpError where
  status : Nat
  body : ErrorBody
  deriving Repr, DecidableEq

/-- `res.json` output for an `ErrorBody`: a `debug` field holding
`undefined` is dropped by JSON serialization. -/
def serializeErrorBody (b : ErrorBody) : String :=
  match b.debug with
  | none => "\x7b\"error\":\"" ++ b.error ++ "\"\x7d"
  | some d => "\x7b\"error\":\"" ++ b.error ++ "\",\"debug\":\"" ++ d ++ "\"\x7d"

/-- The `/api/chat` catch block: fixed apology in `error`, and
`debug: process.env.NODE_ENV === 'development' ? error.message : undefined`. -/
def chatCatchResponse (nodeEnv : Option String) (excMsg : String) : HttpError :=
  { status := 500
    body := { error := "I\x27m having trouble understanding right now. Please try again."
              debug := if nodeEnv == some "development" then some excMsg else none } }

/-- The `/api/memory-lane` catch block. -/
def memoryLaneCatchResponse : HttpError :=
  { status := 500
    body := { error := "Let\x27s try talking about memories again in a moment."
              debug := none } }

/-- The `/api/spotify` catch block. -/
def spotifyCatchResponse : HttpError :=
  { status := 500
    body := { error := "Music is taking a short break. Let\x27s try again soon."
              debug := none } }

/-- A serialized error body is safe when it contains neither the word
`stack` nor an exception class name (all standard JS exception classes end
in `Error`, so absence of `Error` covers them). -/
def errorBodySafe (b : ErrorBody) : Bool :=
  !(jsIncludes (serializeErrorBody b) "stack") &&
  !(jsIncludes (serializeErrorBody b) "Error")

/-! ### /api/spotify -/

def happySongs : List String :=
  ["Here Comes the Sun - The Beatles", "What a Wonderful World - Louis Armstrong"]

def calmSongs : List String :=
  ["Claire de Lune - Claude Debussy", "Weightless - Marconi Union"]

def nostalgicSongs : List String :=
  ["The Way You Look Tonight - Frank Sinatra", "Moon River - Audrey Hepburn"]

def energeticSongs : List String :=
  ["Good Vibrations - The Beach Boys", "I Want to Hold Your Hand - The Beatles"]

/-- Value of a JS bracket lookup on the `musicSuggestions` object literal:
one of the four own array properties, a truthy member inherited from
`Object.prototype` (a function, or the prototype object for `__proto__`),
or `undefined`. -/
inductive JsVal where
  | jsUndefined
  | list (l : List String)
  | inherited (key : String)
  deriving Repr, DecidableEq

/-- JS truthiness of such a value: `undefined` is falsy; arrays, functions
and objects are truthy. -/
def jsValTruthy : JsVal → Bool
  | .jsUndefined => false
  | .list _ => true
  | .inherited _ => true

/-- `true` exactly for a non-empty array value. -/
def isNonEmptyList : JsVal → Bool
  | .list l => !l.isEmpty
  | _ => false

/-- The property names every plain object literal inherits from
`Object.prototype` (including the `__proto__` accessor), all bound to
truthy values. -/
def objectPrototypeKeys : List String :=
  ["constructor", "hasOwnProperty", "isPrototypeOf", "propertyIsEnumerable",
   "toLocaleString", "toString", "valueOf", "__proto__",
   "__defineGetter__", "__defineSetter__", "__lookupGetter__", "__lookupSetter__"]

/-- Key lookup in the `musicSuggestions` object literal of `/api/spotify`:
an own key yields its array; on an own-property miss the prototype chain is
consulted, so an `Object.prototype` property name yields the truthy
inherited member; any other key yields `undefined`. -/
def musicSuggestionsLookup (m : String) : JsVal :=
  if m == "happy" then .list happySongs
  else if m == "calm" then .list calmSongs
  else if m == "nostalgic" then .list nostalgicSongs
  else if m == "energetic" then .list energeticSongs
  else if objectPrototypeKeys.contains m then .inherited m
  else .jsUndefined

/-- The fixed `playlistSuggestions` literal of `/api/spotify`. -/
def playlistSuggestions : List String :=
  ["Golden Oldies", "Classical Relaxation", "Big Band Era",
   "Feel Good Songs", "Memory Lane Hits"]

/-- `musicSuggestions[mood] || musicSuggestions['happy']`: indexing with an
`undefined` mood yields `undefined` (falsy, so the happy fallback fires);
for a string mood the fallback fires exactly when the lookup value is
falsy, i.e. `undefined` — a truthy inherited prototype member is kept. -/
def spotifySuggestions (mood : Option String) : JsVal :=
  match mood with
  | none => .list happySongs
  | some m =>
      if jsValTruthy (musicSuggestionsLookup m) then musicSuggestionsLookup m
      else .list happySongs

/-- Response text of `/api/spotify`, by strict equality on `action`. -/
def spotifyResponseText (action query mood : Option String) : String :=
  if action == some "search" then
    "I found some music for \"" ++ jsInterp query ++ "\". Would you like me to play it?"
  else if action == some "mood" then
    "Here are some " ++ jsInterp mood ++ " songs I think you\x27ll enjoy!"
  else "What kind of music would you like to hear today?"

/-- Success response body of `/api/spotify` before JSON serialization
(`res.json` later drops a function-valued `suggestions` field). -/
structure SpotifyRes where
  response : String
  suggestions : JsVal
  playlists : List String
  action : String
  timestamp : String
  deriving Repr, DecidableEq

/-- The `/api/spotify` success path. -/
def spotifyHandler (action query mood : Option String) (ts : String) : SpotifyRes :=
  { response := spotifyResponseText action query mood
    suggestions := spotifySuggestions mood
    playlists := playlistSuggestions
    action := jsOr action "browse"
    timestamp := ts }

/-! ### /api/test-message -/

/-- Response body of `/api/test-message` (`received` echoes the raw field,
so it is absent when the field was). -/
structure TestMessageRes where
  received : Option String
  echo : String
  status : String
  timestamp : String
  deriving Repr, DecidableEq

/-- The `/api/test-message` handler (no validation, no external call). -/
def testMessageHandler (message : Option String) (ts : String) : TestMessageRes :=
  { received := message
    echo := "You said: \"" ++ jsInterp message ++ "\""
    status := "Message captured successfully"
    timestamp := ts }

/-! ### VoiceService (client voice input adapter) -/

/-- Observable state of a `VoiceService` instance: whether the platform
supports recognition (`recognition !== null`), the `isListening` flag, how
many times the result/error/end handlers have been (re)assigned, and how
many times `recognition.stop()` has been invoked. -/
structure VoiceState where
  supported : Bool
  isListening : Bool
  handlerAssignments : Nat
  stopCalls : Nat
  deriving Repr, DecidableEq

/-- Outcome of a `startListening()` call: the promise either rejects
immediately with an error message, or the session starts. -/
inductive StartOutcome where
  | rejected (errMsg : String)
  | started
  deriving Repr, DecidableEq

/-- `VoiceService.startListening`: reject when unsupported; reject with
`Already listening` when a session is active (before any handler assignment
or `start()` call); otherwise assign the three handlers, call `start()`
(which may throw, modelled by `startThrows`), and set `isListening`. -/
def startListening (startThrows : Bool) (s : VoiceState) :
    StartOutcome × VoiceState :=
  if !s.supported then (.rejected "Speech recognition not supported", s)
  else if s.isListening then (.rejected "Already listening", s)
  else if startThrows then
    (.rejected "Failed to start speech recognition",
     { s with handlerAssignments := s.handlerAssignments + 1, isListening := false })
  else (.started, { s with handlerAssignments := s.handlerAssignments + 1, isListening := true })

/-- `VoiceService.stopListening`: calls `recognition.stop()` and clears the
flag only when supported and currently listening. -/
def stopListening (s : VoiceState) : VoiceState :=
  if s.supported && s.isListening then
    { s with stopCalls := s.stopCalls + 1, isListening := false }
  else s

/-! ## Shared lemmas -/

/-- The source's literal ten-way disjunction agrees with keyword-list
membership: `isMiraRelated` holds exactly when some configured keyword is a
case-insensitive substring of the query. -/
theorem isMiraRelated_eq_containsKeywordCI (q : String) :
    isMiraRelated (some q) = containsKeywordCI q := by
  by_cases hq : q = ""
  · subst hq; decide
  · have h1 : (q != "") = true := by simp [hq]
    simp [isMiraRelated, containsKeywordCI, miraKeywords, h1, Bool.or_assoc]

/-- For a key that is not an `Object.prototype` property name, the object
lookup yields one of the four own arrays or `undefined`. -/
theorem musicSuggestionsLookup_of_not_proto (m : String)
    (hc : objectPrototypeKeys.contains m = false) :
    musicSuggestionsLookup m = .list happySongs ∨
    musicSuggestionsLookup m = .list calmSongs ∨
    musicSuggestionsLookup m = .list nostalgicSongs ∨
    musicSuggestionsLookup m = .list energeticSongs ∨
    musicSuggestionsLookup m = .jsUndefined := by
  simp only [musicSuggestionsLookup, hc]
  split
  · exact Or.inl rfl
  · split
    · exact Or.inr (Or.inl rfl)
    · split
      · exact Or.inr (Or.inr (Or.inl rfl))
      · split
        · exact Or.inr (Or.inr (Or.inr (Or.inl rfl)))
        · exact Or.inr (Or.inr (Or.inr (Or.inr (by simp))))

/-- For a mood that is absent or not an `Object.prototype` property name,
`spotifySuggestions` yields one of the four fixed mood lists. -/
theorem spotifySuggestions_fixed_of_not_proto (mood : Option String)
    (h : ∀ m, mood = some m → objectPrototypeKeys.contains m = false) :
    spotifySuggestions mood = .list happySongs ∨
    spotifySuggestions mood = .list calmSongs ∨
    spotifySuggestions mood = .list nostalgicSongs ∨
    spotifySuggestions mood = .list energeticSongs := by
  cases mood with
  | none => exact Or.inl rfl
  | some m =>
    rcases musicSuggestionsLookup_of_not_proto m (h m rfl) with hl | hl | hl | hl | hl
    · exact Or.inl (by simp [spotifySuggestions, hl, jsValTruthy])
    · exact Or.inr (Or.inl (by simp [spotifySuggestions, hl, jsValTruthy]))
    · exact Or.inr (Or.inr (Or.inl (by simp [spotifySuggestions, hl, jsValTruthy])))
    · exact Or.inr (Or.inr (Or.inr (by simp [spotifySuggestions, hl, jsValTruthy])))
    · exact Or.inl (by simp [spotifySuggestions, hl, jsValTruthy])

/-! ## Claim theorems -/

/-- C1: a query containing at least one configured memory-recall keyword as
a case-insensitive substring is classified `isMiraRelated` and receives the
fixed 5-item Mira suggestion list; a query containing none of them is
classified general and receives the fixed 5-item general list. -/
theorem classifier_keyword_selects_suggestion_list
    (q : String) (mt : Option String) (g ts : String) :
    isMiraRelated (some q) = containsKeywordCI q
    ∧ (containsKeywordCI q = true →
        (memoryLaneHandler (some q) mt g ts).suggestions = miraSuggestions)
    ∧ (containsKeywordCI q = false →
        (memoryLaneHandler (some q) mt g ts).suggestions = generalSuggestions)
    ∧ miraSuggestions.length = 5 ∧ generalSuggestions.length = 5 := by
  refine ⟨isMiraRelated_eq_containsKeywordCI q, ?_, ?_, by decide, by decide⟩
  · intro h
    simp [memoryLaneHandler, memorySuggestions, isMiraRelated_eq_containsKeywordCI, h]
  · intro h
    simp [memoryLaneHandler, memorySuggestions, isMiraRelated_eq_containsKeywordCI, h]

/-- Witness for C1 at two concrete queries ("park" keyword present;
no keyword present). -/
theorem classifier_keyword_selects_suggestion_list_witness :
    (memoryLaneHandler (some "We went to the PARK today") none "ok" "t").suggestions
      = miraSuggestions
    ∧ (memoryLaneHandler (some "hello ami") none "ok" "t").suggestions
      = generalSuggestions :=
  ⟨(classifier_keyword_selects_suggestion_list "We went to the PARK today" none "ok" "t").2.1
      (by decide),
   (classifier_keyword_selects_suggestion_list "hello ami" none "ok" "t").2.2.1
      (by decide)⟩

/-- C2 counterexample: it is not true that the serialized `/api/chat` error
body avoids the word `stack` for every `NODE_ENV` and every exception
message — with `NODE_ENV=development` the raw exception message is emitted
in the `debug` field. -/
theorem chat_development_debug_leak_counterexample :
    ¬ (∀ (nodeEnv : Option String) (excMsg : String),
        jsIncludes (serializeErrorBody (chatCatchResponse nodeEnv excMsg).body)
          "stack" = false) := by
  intro h
  exact absurd (h (some "development") "TypeError: cannot read stack") (by decide)

/-- C2 (amended): on upstream generation failure each of `/api/chat`,
`/api/memory-lane` and `/api/spotify` answers 500 with a non-empty fixed
`error` string; the memory-lane and spotify bodies never contain `stack`
or an exception class name, and the chat body does not either provided
`NODE_ENV` is not `development` (in development mode the extra `debug`
field carries the raw exception message). -/
theorem generation_failure_responses_are_safe
    (nodeEnv : Option String) (excMsg : String)
    (h : nodeEnv ≠ some "development") :
    (chatCatchResponse nodeEnv excMsg).status = 500
    ∧ (chatCatchResponse nodeEnv excMsg).body.error ≠ ""
    ∧ errorBodySafe (chatCatchResponse nodeEnv excMsg).body = true
    ∧ memoryLaneCatchResponse.status = 500
    ∧ memoryLaneCatchResponse.body.error ≠ ""
    ∧ errorBodySafe memoryLaneCatchResponse.body = true
    ∧ spotifyCatchResponse.status = 500
    ∧ spotifyCatchResponse.body.error ≠ ""
    ∧ errorBodySafe spotifyCatchResponse.body = true := by
  have hb : (nodeEnv == some "development") = false := by
    simp [h]
  have hresp : chatCatchResponse nodeEnv excMsg =
      { status := 500
        body := { error := "I\x27m having trouble understanding right now. Please try again."
                  debug := none } } := by
    simp [chatCatchResponse, hb]
  rw [hresp]
  exact ⟨rfl, by decide, by decide, rfl, by decide, by decide, rfl, by decide, by decide⟩

/-- Witness for C2 (amended) with `NODE_ENV` unset. -/
theorem generation_failure_responses_are_safe_witness :
    errorBodySafe (chatCatchResponse none "boom").body = true
    ∧ errorBodySafe memoryLaneCatchResponse.body = true :=
  ⟨(generation_failure_responses_are_safe none "boom" (by decide)).2.2.1,
   (generation_failure_responses_are_safe none "boom" (by decide)).2.2.2.2.2.1⟩

/-- C3: `/api/chat` rejects an empty-string message and an absent message
alike with `400 Message is required`, and performs no external generation
call in either case. -/
theorem chat_rejects_empty_and_absent_message (context : Option String) :
    chatHandler (some "") context = .validationError 400 "Message is required"
    ∧ chatHandler none context = .validationError 400 "Message is required"
    ∧ callsModel (chatHandler (some "") context) = false
    ∧ callsModel (chatHandler none context) = false :=
  ⟨rfl, rfl, rfl, rfl⟩

/-- C4: on every successful `/api/memory-lane` request the `suggestions`
field equals one of the two fixed lists, element for element, and has
exactly 5 entries. -/
theorem memory_lane_suggestions_fixed_five
    (query memoryType : Option String) (g ts : String) :
    ((memoryLaneHandler query memoryType g ts).suggestions = miraSuggestions
      ∨ (memoryLaneHandler query memoryType g ts).suggestions = generalSuggestions)
    ∧ (memoryLaneHandler query memoryType g ts).suggestions.length = 5 := by
  cases hm : isMiraRelated query with
  | true =>
    constructor
    · exact Or.inl (by simp [memoryLaneHandler, memorySuggestions, hm])
    · simp [memoryLaneHandler, memorySuggestions, hm, miraSuggestions]
  | false =>
    constructor
    · exact Or.inr (by simp [memoryLaneHandler, memorySuggestions, hm])
    · simp [memoryLaneHandler, memorySuggestions, hm, generalSuggestions]

/-- C5: an absent or empty query classifies as general: the general prompt
template is used with its conversation-starter tail, the general suggestion
list is returned, and the request completes normally with the generated
text. -/
theorem empty_query_falls_back_to_general
    (query memoryType : Option String) (g ts : String)
    (h : query = none ∨ query = some "") :
    isMiraRelated query = false
    ∧ memoryLanePrompt query memoryType =
        generalPromptHead memoryType ++ "Start a conversation about pleasant memories."
    ∧ (memoryLaneHandler query memoryType g ts).suggestions = generalSuggestions
    ∧ (memoryLaneHandler query memoryType g ts).response = g := by
  rcases h with h | h <;> subst h <;> exact ⟨rfl, rfl, rfl, rfl⟩

/-- Witness for C5 at the empty-string query. -/
theorem empty_query_falls_back_to_general_witness :
    isMiraRelated (some "") = false
    ∧ memoryLanePrompt (some "") (some "childhood") =
        generalPromptHead (some "childhood") ++
          "Start a conversation about pleasant memories."
    ∧ (memoryLaneHandler (some "") (some "childhood") "hello" "t").suggestions
        = generalSuggestions
    ∧ (memoryLaneHandler (some "") (some "childhood") "hello" "t").response = "hello" :=
  empty_query_falls_back_to_general (some "") (some "childhood") "hello" "t" (Or.inr rfl)

/-- C6 counterexample: the mood `toString` is none of the configured keys,
yet `musicSuggestions['toString']` finds the truthy inherited
`Object.prototype.toString`, the `|| happy` fallback does not fire, and the
`suggestions` value is not one of the fixed literal lists. -/
theorem spotify_prototype_key_suggestions_counterexample :
    (spotifyHandler none none (some "toString") "t").suggestions
      = JsVal.inherited "toString"
    ∧ ¬ ((spotifyHandler none none (some "toString") "t").suggestions
          = JsVal.list happySongs
        ∨ (spotifyHandler none none (some "toString") "t").suggestions
          = JsVal.list calmSongs
        ∨ (spotifyHandler none none (some "toString") "t").suggestions
          = JsVal.list nostalgicSongs
        ∨ (spotifyHandler none none (some "toString") "t").suggestions
          = JsVal.list energeticSongs) := by
  decide

/-- C6 (amended): memory-lane responses always carry one of the two fixed
5-item literal lists, never empty; spotify responses carry one of the four
fixed literal mood lists, never empty, whenever the mood is absent or not
an `Object.prototype` property name — for such a prototype name the
suggestions value is the inherited prototype member, not a fixed list. -/
theorem suggestion_lists_are_fixed_literals
    (query memoryType : Option String) (g ts : String)
    (action q2 mood : Option String) (ts2 : String)
    (h : ∀ m, mood = some m → objectPrototypeKeys.contains m = false) :
    ((memoryLaneHandler query memoryType g ts).suggestions = miraSuggestions
      ∨ (memoryLaneHandler query memoryType g ts).suggestions = generalSuggestions)
    ∧ (memoryLaneHandler query memoryType g ts).suggestions.isEmpty = false
    ∧ ((spotifyHandler action q2 mood ts2).suggestions = JsVal.list happySongs
      ∨ (spotifyHandler action q2 mood ts2).suggestions = JsVal.list calmSongs
      ∨ (spotifyHandler action q2 mood ts2).suggestions = JsVal.list nostalgicSongs
      ∨ (spotifyHandler action q2 mood ts2).suggestions = JsVal.list energeticSongs)
    ∧ isNonEmptyList (spotifyHandler action q2 mood ts2).suggestions = true := by
  refine ⟨?_, ?_, spotifySuggestions_fixed_of_not_proto mood h, ?_⟩
  · cases hm : isMiraRelated query
    · exact Or.inr (by simp [memoryLaneHandler, memorySuggestions, hm])
    · exact Or.inl (by simp [memoryLaneHandler, memorySuggestions, hm])
  · cases hm : isMiraRelated query <;>
      simp [memoryLaneHandler, memorySuggestions, hm, miraSuggestions, generalSuggestions]
  · rcases spotifySuggestions_fixed_of_not_proto mood h with hs | hs | hs | hs <;>
      simp [spotifyHandler] at hs ⊢ <;>
      simp [hs, isNonEmptyList, happySongs, calmSongs, nostalgicSongs, energeticSongs]

/-- Witness for C6 (amended) at a concrete non-prototype mood. -/
theorem suggestion_lists_are_fixed_literals_witness :
    ((spotifyHandler none none (some "waltz") "t2").suggestions = JsVal.list happySongs
      ∨ (spotifyHandler none none (some "waltz") "t2").suggestions = JsVal.list calmSongs
      ∨ (spotifyHandler none none (some "waltz") "t2").suggestions = JsVal.list nostalgicSongs
      ∨ (spotifyHandler none none (some "waltz") "t2").suggestions = JsVal.list energeticSongs)
    ∧ isNonEmptyList (spotifyHandler none none (some "waltz") "t2").suggestions = true :=
  ⟨(suggestion_lists_are_fixed_literals none none "g" "t" none none (some "waltz") "t2"
      (by intro m hm; injection hm with hm; subst hm; decide)).2.2.1,
   (suggestion_lists_are_fixed_literals none none "g" "t" none none (some "waltz") "t2"
      (by intro m hm; injection hm with hm; subst hm; decide)).2.2.2⟩

/-- C7: `/api/test-message` with message `hi` echoes it back verbatim
with the fixed status and a timestamp field. -/
theorem test_message_echoes_hi (ts : String) :
    testMessageHandler (some "hi") ts =
      { received := some "hi"
        echo := "You said: \"hi\""
        status := "Message captured successfully"
        timestamp := ts } :=
  rfl

/-- C8: calling `startListening` while a session is already active rejects
with `Already listening` and leaves the state untouched: the first session
stays listening, no handlers are re-assigned and `recognition.stop()` is
not invoked. -/
theorem startListening_while_active_rejects (startThrows : Bool) (s : VoiceState)
    (hSup : s.supported = true) (hLis : s.isListening = true) :
    startListening startThrows s = (.rejected "Already listening", s)
    ∧ (startListening startThrows s).2.isListening = true
    ∧ (startListening startThrows s).2.handlerAssignments = s.handlerAssignments
    ∧ (startListening startThrows s).2.stopCalls = s.stopCalls := by
  have h : startListening startThrows s = (.rejected "Already listening", s) := by
    simp [startListening, hSup, hLis]
  exact ⟨h, by rw [h]; exact hLis, by rw [h], by rw [h]⟩

/-- Witness for C8 at a concrete active state. -/
theorem startListening_while_active_rejects_witness :
    startListening false ⟨true, true, 1, 0⟩ =
      (.rejected "Already listening", ⟨true, true, 1, 0⟩)
    ∧ (startListening false ⟨true, true, 1, 0⟩).2.isListening = true
    ∧ (startListening false ⟨true, true, 1, 0⟩).2.handlerAssignments = 1
    ∧ (startListening false ⟨true, true, 1, 0⟩).2.stopCalls = 0 :=
  startListening_while_active_rejects false ⟨true, true, 1, 0⟩ rfl rfl

/-- C9: the `memoryType` field never influences classification or the
suggestion list of `/api/memory-lane` — two requests with the same query
and different `memoryType`s get identical suggestions, determined solely by
`isMiraRelated` of the query; `memoryType` is only echoed back with default
`general`. -/
theorem memoryType_does_not_influence_classification
    (query mt1 mt2 : Option String) (g ts : String) :
    (memoryLaneHandler query mt1 g ts).suggestions
      = (memoryLaneHandler query mt2 g ts).suggestions
    ∧ (memoryLaneHandler query mt1 g ts).suggestions
      = memorySuggestions (isMiraRelated query)
    ∧ (memoryLaneHandler query mt1 g ts).memoryType = jsOr mt1 "general" :=
  ⟨rfl, rfl, rfl⟩

/-- C10 counterexample: the mood `constructor` is none of the four
configured keys, yet the request does not get the happy list — the lookup
finds the truthy inherited `Object.prototype.constructor`, so the fallback
does not fire. -/
theorem spotify_constructor_mood_counterexample :
    ("constructor" ≠ "happy" ∧ "constructor" ≠ "calm"
      ∧ "constructor" ≠ "nostalgic" ∧ "constructor" ≠ "energetic")
    ∧ (spotifyHandler none none (some "constructor") "t").suggestions
        = JsVal.inherited "constructor"
    ∧ ¬ ((spotifyHandler none none (some "constructor") "t").suggestions
          = JsVal.list happySongs) := by
  decide

/-- C10 (amended): a `/api/spotify` request whose mood is absent, or is
neither one of the four configured keys nor an `Object.prototype` property
name, gets the fixed 2-entry happy list; the `playlists` field of every
request is the same fixed 5-entry list. -/
theorem spotify_unknown_mood_defaults_to_happy
    (action query mood : Option String) (ts : String)
    (h : ∀ m, mood = some m →
      m ≠ "happy" ∧ m ≠ "calm" ∧ m ≠ "nostalgic" ∧ m ≠ "energetic"
      ∧ objectPrototypeKeys.contains m = false) :
    (spotifyHandler action query mood ts).suggestions = JsVal.list happySongs
    ∧ happySongs.length = 2
    ∧ (∀ (a2 q2 m2 : Option String) (t2 : String),
        (spotifyHandler a2 q2 m2 t2).playlists = playlistSuggestions)
    ∧ playlistSuggestions.length = 5 := by
  refine ⟨?_, by decide, fun _ _ _ _ => rfl, by decide⟩
  cases mood with
  | none => rfl
  | some m =>
    obtain ⟨h1, h2, h3, h4, h5⟩ := h m rfl
    have h5' : m ∉ objectPrototypeKeys := by simpa using h5
    have hl : musicSuggestionsLookup m = .jsUndefined := by
      simp [musicSuggestionsLookup, h1, h2, h3, h4, h5']
    simp [spotifyHandler, spotifySuggestions, hl, jsValTruthy]

/-- Witness for C10 (amended) at the unconfigured, non-prototype mood
`jazz`. -/
theorem spotify_unknown_mood_defaults_to_happy_witness :
    (spotifyHandler none none (some "jazz") "t").suggestions = JsVal.list happySongs :=
  (spotify_unknown_mood_defaults_to_happy none none (some "jazz") "t"
    (by
      intro m hm
      injection hm with hm
      subst hm
      exact ⟨by decide, by decide, by decide, by decide, by decide⟩)).1

end DementiaCompanion
